import Mathlib

/-!
Shallow embedding of the 3x5cm barcode-export React component
(BarcodeMaker3x5): the physical-size-aware rasterization pipeline
(renderBarcode / exportPNG), its geometry arithmetic, and the
orchestrator state (error message, download URL, live object URLs).

JavaScript numbers are modelled as exact rationals where every
intermediate value is finite; a small JS-float lattice (finite, +-Inf,
NaN) models the division-by-zero behaviour of the geometry code.
-/

namespace Barcode

/-- JavaScript Math.round: round half toward positive infinity. -/
def jround (q : ℚ) : ℤ := ⌊q + 1/2⌋

/-- Source: exportPNG, pxPerCm = dpi / 2.54. -/
def pxPerCm (dpi : ℚ) : ℚ := dpi / (2.54 : ℚ)

/-- Source: exportPNG, w = Math.round(widthCm * pxPerCm),
h = Math.round(heightCm * pxPerCm). The DimensionCalculator of the spec. -/
def computeCanvasPx (widthCm heightCm dpi : ℚ) : ℤ × ℤ :=
  (jround (widthCm * pxPerCm dpi), jround (heightCm * pxPerCm dpi))

/-- Source: exportPNG, pad = Math.round(Math.min(w, h) * 0.04). -/
def padOf (w h : ℤ) : ℤ := jround (((min w h : ℤ) : ℚ) * (0.04 : ℚ))

/-- Source: exportPNG, drawW = w - pad * 2. -/
def drawWOf (w h : ℤ) : ℤ := w - padOf w h * 2

/-- Source: exportPNG, drawH = h - pad * 2. -/
def drawHOf (w h : ℤ) : ℤ := h - padOf w h * 2

/-- Source: exportPNG, scale = Math.min(drawW / img.width, drawH / img.height).
Exact-rational model; faithful whenever img.width and img.height are nonzero. -/
def scaleOf (w h iw ih : ℤ) : ℚ :=
  min ((drawWOf w h : ℚ) / (iw : ℚ)) ((drawHOf w h : ℚ) / (ih : ℚ))

/-- Source: exportPNG, finalW = Math.round(img.width * scale). -/
def finalWOf (w h iw ih : ℤ) : ℤ := jround ((iw : ℚ) * scaleOf w h iw ih)

/-- Source: exportPNG, finalH = Math.round(img.height * scale). -/
def finalHOf (w h iw ih : ℤ) : ℤ := jround ((ih : ℚ) * scaleOf w h iw ih)

/-- Source: exportPNG, dx = Math.round((w - finalW) / 2). -/
def dxOf (w h iw ih : ℤ) : ℤ := jround (((w - finalWOf w h iw ih : ℤ) : ℚ) / 2)

/-- Source: exportPNG, dy = Math.round((h - finalH) / 2). -/
def dyOf (w h iw ih : ℤ) : ℤ := jround (((h - finalHOf w h iw ih : ℤ) : ℚ) / 2)

/-- The geometry computed by exportPNG lines 102-111 for one export. -/
structure Geometry where
  pad : ℤ
  drawW : ℤ
  drawH : ℤ
  scale : ℚ
  finalW : ℤ
  finalH : ℤ
  dx : ℤ
  dy : ℤ
deriving DecidableEq, Repr

/-- RasterCompositor geometry: canvas (w, h), decoded image (iw, ih). -/
def compositorGeometry (w h iw ih : ℤ) : Geometry :=
  { pad := padOf w h
    drawW := drawWOf w h
    drawH := drawHOf w h
    scale := scaleOf w h iw ih
    finalW := finalWOf w h iw ih
    finalH := finalHOf w h iw ih
    dx := dxOf w h iw ih
    dy := dyOf w h iw ih }

lemma jround_le (q : ℚ) : (jround q : ℚ) ≤ q + 1/2 := by
  simpa [jround] using Int.floor_le (q + 1/2)

lemma lt_jround (q : ℚ) : q - 1/2 < (jround q : ℚ) := by
  have h := Int.lt_floor_add_one (q + 1/2)
  rw [jround]
  linarith

lemma jround_abs_sub_le (q : ℚ) : |(jround q : ℚ) - q| ≤ 1/2 := by
  rw [abs_le]
  constructor
  · have := lt_jround q; linarith
  · have := jround_le q; linarith

lemma le_jround (n : ℤ) (q : ℚ) (h : (n : ℚ) ≤ q) : n ≤ jround q := by
  rw [jround, Int.le_floor]
  linarith

/-- Minimal model of the IEEE-754 double values reachable in the
geometry code: exact finite rationals, the two infinities, and NaN.
Used to settle what lines 107-111 do on a zero-extent decoded image. -/
inductive JNum where
  | fin : ℚ → JNum
  | posInf : JNum
  | negInf : JNum
  | nan : JNum
deriving DecidableEq, Repr

namespace JNum

/-- JS division on those values (signed zero is not modelled: the
source divides nonnegative quantities by image dimensions). -/
def div : JNum → JNum → JNum
  | fin a, fin b =>
      if b = 0 then (if a = 0 then nan else if 0 < a then posInf else negInf)
      else fin (a / b)
  | fin _, posInf => fin 0
  | fin _, negInf => fin 0
  | posInf, fin b => if 0 ≤ b then posInf else negInf
  | negInf, fin b => if 0 ≤ b then negInf else posInf
  | _, _ => nan

/-- JS multiplication; 0 * Infinity is NaN. -/
def mul : JNum → JNum → JNum
  | fin a, fin b => fin (a * b)
  | fin a, posInf => if a = 0 then nan else if 0 < a then posInf else negInf
  | posInf, fin a => if a = 0 then nan else if 0 < a then posInf else negInf
  | fin a, negInf => if a = 0 then nan else if 0 < a then negInf else posInf
  | negInf, fin a => if a = 0 then nan else if 0 < a then negInf else posInf
  | posInf, posInf => posInf
  | negInf, negInf => posInf
  | posInf, negInf => negInf
  | negInf, posInf => negInf
  | _, _ => nan

/-- JS Math.min: NaN-propagating, -Infinity absorbing. -/
def minJ : JNum → JNum → JNum
  | nan, _ => nan
  | _, nan => nan
  | negInf, _ => negInf
  | _, negInf => negInf
  | posInf, b => b
  | a, posInf => a
  | fin a, fin b => fin (min a b)

/-- JS Math.round on those values. -/
def round : JNum → JNum
  | fin a => fin ((jround a : ℤ) : ℚ)
  | posInf => posInf
  | negInf => negInf
  | nan => nan

end JNum

/-- Source: exportPNG line 107 under JS float semantics, so that
division by a zero image dimension is modelled faithfully. -/
def scaleOfJS (w h iw ih : ℤ) : JNum :=
  JNum.minJ (JNum.div (JNum.fin (drawWOf w h : ℚ)) (JNum.fin (iw : ℚ)))
    (JNum.div (JNum.fin (drawHOf w h : ℚ)) (JNum.fin (ih : ℚ)))

/-- Source: exportPNG line 108 under JS float semantics. -/
def finalWOfJS (w h iw ih : ℤ) : JNum :=
  JNum.round (JNum.mul (JNum.fin (iw : ℚ)) (scaleOfJS w h iw ih))

/-- Source: exportPNG line 109 under JS float semantics. -/
def finalHOfJS (w h iw ih : ℤ) : JNum :=
  JNum.round (JNum.mul (JNum.fin (ih : ℚ)) (scaleOfJS w h iw ih))

/-- Result of one exportPNG invocation. -/
inductive Outcome where
  | success
  | noBarcode
  | svgNotFound
  | exportFailed
deriving DecidableEq, Repr

/-- Result of one renderBarcode invocation; skipped is the silent early
return when svgRef.current is null. -/
inductive RenderOutcome where
  | rendered
  | skipped
  | renderError
deriving DecidableEq, Repr

/-- Component state touched by the two operations: the error message,
the current download URL, and, for resource accounting, the object URLs
allocated so far. URL.createObjectURL is modelled as a counter handing
out fresh handles; live lists the handles not yet revoked. -/
structure AppState where
  downloadUrl : Option ℕ
  error : String
  nextHandle : ℕ
  live : List ℕ
deriving DecidableEq, Repr

/-- External collaborators of one exportPNG run: the DOM refs, the
serialized SVG text of the symbol, the image decode result (intrinsic
pixel size, or none when onerror fires), and whether canvas.toBlob
delivers a blob. -/
structure ExportEnv where
  refPresent : Bool
  svgFound : Bool
  svgString : String
  decodeResult : Option (ℤ × ℤ)
  encodeOk : Bool
deriving DecidableEq, Repr

/-- The composited raster handed to the PNG encoder: its exact pixel
dimensions, the draw geometry and the drawn snapshot determine every
pixel (white background, snapshot drawn at (dx, dy, finalW, finalH)). -/
structure CanvasContent where
  w : ℤ
  h : ℤ
  geom : Geometry
  snapshot : String
deriving DecidableEq, Repr

/-- Source: exportPNG (lines 55-127), sequential model of one run:
final state, outcome, and the content of the encoded PNG when one was
produced. Handle s.nextHandle is the temporary SVG object URL; on
success handle s.nextHandle + 1 is the PNG object URL. -/
def exportPNG (env : ExportEnv) (widthCm heightCm dpi : ℚ) (s : AppState) :
    AppState × Outcome × Option CanvasContent :=
  let s0 := { s with error := "" }
  if env.refPresent = false then
    ({ s0 with error := "No barcode to export." }, Outcome.noBarcode, none)
  else if env.svgFound = false then
    ({ s0 with error := "SVG not found." }, Outcome.svgNotFound, none)
  else
    let wh := computeCanvasPx widthCm heightCm dpi
    let url := s0.nextHandle
    let s1 : AppState :=
      { s0 with nextHandle := s0.nextHandle + 1, live := s0.live ++ [url] }
    match env.decodeResult with
    | none =>
        ({ s1 with
            error := "Export failed. Try reducing DPI or changing the barcode format.",
            live := s1.live.filter (fun x => x ≠ url) },
         Outcome.exportFailed, none)
    | some (iw, ih) =>
        let geom := compositorGeometry wh.1 wh.2 iw ih
        if env.encodeOk = false then
          ({ s1 with
              error := "Export failed. Try reducing DPI or changing the barcode format.",
              live := s1.live.filter (fun x => x ≠ url) },
           Outcome.exportFailed, none)
        else
          let pngUrl := s1.nextHandle
          let s2 : AppState :=
            { s1 with nextHandle := s1.nextHandle + 1, live := s1.live ++ [pngUrl],
                      downloadUrl := some pngUrl }
          ({ s2 with live := s2.live.filter (fun x => x ≠ url) },
           Outcome.success, some ⟨wh.1, wh.2, geom, env.svgString⟩)

/-- External collaborators of one renderBarcode run: the DOM ref and
whether JsBarcode accepts the current value and format. -/
structure RenderEnv where
  refPresent : Bool
  barcodeOk : Bool
deriving DecidableEq, Repr

/-- Source: renderBarcode (lines 30-53). -/
def renderBarcode (env : RenderEnv) (s : AppState) : AppState × RenderOutcome :=
  let s0 := { s with error := "" }
  if env.refPresent = false then (s0, RenderOutcome.skipped)
  else if env.barcodeOk then (s0, RenderOutcome.rendered)
  else ({ s0 with error := "Unable to render barcode with the current settings." },
        RenderOutcome.renderError)

lemma filter_ne_of_not_mem (l : List ℕ) (n : ℕ) (h : n ∉ l) :
    l.filter (fun x => x ≠ n) = l := by
  rw [List.filter_eq_self]
  intro a ha
  simp only [ne_eq, decide_eq_true_eq]
  exact fun e => h (e ▸ ha)

/-- C1: for positive finite physical dimensions and dpi the canvas size
is (round(widthCm * dpi / 2.54), round(heightCm * dpi / 2.54)); at the
deployed 5 x 3 cm size this gives (591, 354) at 300 dpi and
(2362, 1417) at 1200 dpi. computeCanvasPx is a total pure function. -/
theorem c1_canvas_px (widthCm heightCm dpi : ℚ)
    (_hw : 0 < widthCm) (_hh : 0 < heightCm) (_hd : 0 < dpi) :
    computeCanvasPx widthCm heightCm dpi =
      (jround (widthCm * dpi / (2.54 : ℚ)), jround (heightCm * dpi / (2.54 : ℚ)))
    ∧ computeCanvasPx 5 3 300 = (591, 354)
    ∧ computeCanvasPx 5 3 1200 = (2362, 1417) := by
  refine ⟨?_, ?_, ?_⟩
  · simp [computeCanvasPx, pxPerCm, mul_div_assoc]
  · norm_num [computeCanvasPx, pxPerCm, jround]
  · norm_num [computeCanvasPx, pxPerCm, jround]

/-- Witness for C1 at widthCm = 5, heightCm = 3, dpi = 300. -/
theorem c1_canvas_px_witness :
    (0 : ℚ) < 5 ∧ (0 : ℚ) < 3 ∧ (0 : ℚ) < 300 ∧
    (computeCanvasPx 5 3 300 =
        (jround (5 * 300 / (2.54 : ℚ)), jround (3 * 300 / (2.54 : ℚ)))
      ∧ computeCanvasPx 5 3 300 = (591, 354)
      ∧ computeCanvasPx 5 3 1200 = (2362, 1417)) :=
  ⟨by norm_num, by norm_num, by norm_num,
    c1_canvas_px 5 3 300 (by norm_num) (by norm_num) (by norm_num)⟩

/-- C4: the padding is round(min(w, h) * 0.04), the available draw area
is (w - 2 pad, h - 2 pad), and when pad > 0 that area is strictly
smaller than the canvas in both dimensions. -/
theorem c4_padding (w h iw ih : ℤ) (hpad : 0 < padOf w h) :
    (compositorGeometry w h iw ih).pad = jround (((min w h : ℤ) : ℚ) * (0.04 : ℚ))
    ∧ (compositorGeometry w h iw ih).drawW = w - 2 * padOf w h
    ∧ (compositorGeometry w h iw ih).drawH = h - 2 * padOf w h
    ∧ (compositorGeometry w h iw ih).drawW < w
    ∧ (compositorGeometry w h iw ih).drawH < h := by
  refine ⟨rfl, ?_, ?_, ?_, ?_⟩ <;>
    simp only [compositorGeometry, drawWOf, drawHOf] <;> omega

/-- Witness for C4 at the 300-dpi canvas 591 x 354 and a 200 x 100
decoded image. -/
theorem c4_padding_witness :
    0 < padOf 591 354 ∧
    ((compositorGeometry 591 354 200 100).pad
        = jround (((min 591 354 : ℤ) : ℚ) * (0.04 : ℚ))
      ∧ (compositorGeometry 591 354 200 100).drawW = 591 - 2 * padOf 591 354
      ∧ (compositorGeometry 591 354 200 100).drawH = 354 - 2 * padOf 591 354
      ∧ (compositorGeometry 591 354 200 100).drawW < 591
      ∧ (compositorGeometry 591 354 200 100).drawH < 354) :=
  ⟨by norm_num [padOf, jround],
    c4_padding 591 354 200 100 (by norm_num [padOf, jround])⟩

/-- C6: dx = round((w - finalW) / 2) and dy = round((h - finalH) / 2),
against the full canvas, and the drawn rectangle is centered within a
1 px rounding tolerance. -/
theorem c6_centering (w h iw ih : ℤ) :
    (compositorGeometry w h iw ih).dx = jround (((w - finalWOf w h iw ih : ℤ) : ℚ) / 2)
    ∧ (compositorGeometry w h iw ih).dy = jround (((h - finalHOf w h iw ih : ℤ) : ℚ) / 2)
    ∧ |((compositorGeometry w h iw ih).dx : ℚ)
        + (finalWOf w h iw ih : ℚ) / 2 - (w : ℚ) / 2| ≤ 1
    ∧ |((compositorGeometry w h iw ih).dy : ℚ)
        + (finalHOf w h iw ih : ℚ) / 2 - (h : ℚ) / 2| ≤ 1 := by
  refine ⟨rfl, rfl, ?_, ?_⟩
  · have h1 := jround_abs_sub_le (((w - finalWOf w h iw ih : ℤ) : ℚ) / 2)
    have e : ((compositorGeometry w h iw ih).dx : ℚ)
          + (finalWOf w h iw ih : ℚ) / 2 - (w : ℚ) / 2
        = ((jround (((w - finalWOf w h iw ih : ℤ) : ℚ) / 2) : ℤ) : ℚ)
          - ((w - finalWOf w h iw ih : ℤ) : ℚ) / 2 := by
      show ((dxOf w h iw ih : ℤ) : ℚ) + _ - _ = _
      rw [dxOf]
      push_cast
      ring
    rw [e]
    exact le_trans h1 (by norm_num)
  · have h1 := jround_abs_sub_le (((h - finalHOf w h iw ih : ℤ) : ℚ) / 2)
    have e : ((compositorGeometry w h iw ih).dy : ℚ)
          + (finalHOf w h iw ih : ℚ) / 2 - (h : ℚ) / 2
        = ((jround (((h - finalHOf w h iw ih : ℤ) : ℚ) / 2) : ℤ) : ℚ)
          - ((h - finalHOf w h iw ih : ℤ) : ℚ) / 2 := by
      show ((dyOf w h iw ih : ℤ) : ℚ) + _ - _ = _
      rw [dyOf]
      push_cast
      ring
    rw [e]
    exact le_trans h1 (by norm_num)

lemma one_add_inv_le_scale (w h iw ih m : ℤ) (hiw : 0 < iw) (hih : 0 < ih)
    (hsw : iw < drawWOf w h) (hsh : ih < drawHOf w h)
    (hm1 : iw ≤ m) (hm2 : ih ≤ m) :
    1 + 1 / (m : ℚ) ≤ scaleOf w h iw ih := by
  have hiwQ : (0 : ℚ) < iw := by exact_mod_cast hiw
  have hihQ : (0 : ℚ) < ih := by exact_mod_cast hih
  have hmQ : (0 : ℚ) < m := lt_of_lt_of_le hiwQ (by exact_mod_cast hm1)
  have hswQ : (iw : ℚ) + 1 ≤ (drawWOf w h : ℚ) := by exact_mod_cast hsw
  have hshQ : (ih : ℚ) + 1 ≤ (drawHOf w h : ℚ) := by exact_mod_cast hsh
  have ha : 1 + 1 / (m : ℚ) ≤ (drawWOf w h : ℚ) / iw := by
    have h1 : 1 / (m : ℚ) ≤ 1 / iw := by
      apply one_div_le_one_div_of_le hiwQ
      exact_mod_cast hm1
    have h2 : ((iw : ℚ) + 1) / iw ≤ (drawWOf w h : ℚ) / iw :=
      div_le_div_of_nonneg_right hswQ (le_of_lt hiwQ)
    have h3 : ((iw : ℚ) + 1) / iw = 1 + 1 / iw := by
      field_simp
    linarith
  have hb : 1 + 1 / (m : ℚ) ≤ (drawHOf w h : ℚ) / ih := by
    have h1 : 1 / (m : ℚ) ≤ 1 / ih := by
      apply one_div_le_one_div_of_le hihQ
      exact_mod_cast hm2
    have h2 : ((ih : ℚ) + 1) / ih ≤ (drawHOf w h : ℚ) / ih :=
      div_le_div_of_nonneg_right hshQ (le_of_lt hihQ)
    have h3 : ((ih : ℚ) + 1) / ih = 1 + 1 / ih := by
      field_simp
    linarith
  exact le_min ha hb

/-- C5: scale = min(availW / imgW, availH / imgH), finalW and finalH are
the rounded scaled image dimensions, and since the scale is not clamped
at 1, an image strictly smaller than the available area in both
dimensions gets a scale above 1 and is drawn larger than native size. -/
theorem c5_scale_to_fit (w h iw ih : ℤ) (hiw : 0 < iw) (hih : 0 < ih)
    (hsw : iw < drawWOf w h) (hsh : ih < drawHOf w h) :
    (compositorGeometry w h iw ih).scale
        = min ((drawWOf w h : ℚ) / (iw : ℚ)) ((drawHOf w h : ℚ) / (ih : ℚ))
    ∧ (compositorGeometry w h iw ih).finalW
        = jround ((iw : ℚ) * (compositorGeometry w h iw ih).scale)
    ∧ (compositorGeometry w h iw ih).finalH
        = jround ((ih : ℚ) * (compositorGeometry w h iw ih).scale)
    ∧ 1 < (compositorGeometry w h iw ih).scale
    ∧ iw ≤ (compositorGeometry w h iw ih).finalW
    ∧ ih ≤ (compositorGeometry w h iw ih).finalH
    ∧ iw * ih < (compositorGeometry w h iw ih).finalW
        * (compositorGeometry w h iw ih).finalH := by
  have hiwQ : (0 : ℚ) < iw := by exact_mod_cast hiw
  have hihQ : (0 : ℚ) < ih := by exact_mod_cast hih
  have hmax := one_add_inv_le_scale w h iw ih (max iw ih) hiw hih hsw hsh
    (le_max_left iw ih) (le_max_right iw ih)
  have hmaxQ : (0 : ℚ) < (max iw ih : ℤ) := lt_of_lt_of_le hiwQ
    (by exact_mod_cast le_max_left iw ih)
  have hscale1 : 1 < scaleOf w h iw ih := by
    have : (0 : ℚ) < 1 / ((max iw ih : ℤ) : ℚ) := by positivity
    linarith
  have hfw : iw ≤ finalWOf w h iw ih := by
    rw [finalWOf]
    apply le_jround
    have : (iw : ℚ) * 1 ≤ (iw : ℚ) * scaleOf w h iw ih :=
      mul_le_mul_of_nonneg_left (le_of_lt hscale1) (le_of_lt hiwQ)
    linarith
  have hfh : ih ≤ finalHOf w h iw ih := by
    rw [finalHOf]
    apply le_jround
    have : (ih : ℚ) * 1 ≤ (ih : ℚ) * scaleOf w h iw ih :=
      mul_le_mul_of_nonneg_left (le_of_lt hscale1) (le_of_lt hihQ)
    linarith
  have hprod : iw * ih < finalWOf w h iw ih * finalHOf w h iw ih := by
    rcases le_total ih iw with hc | hc
    · -- iw is the larger dimension: finalW gains at least one pixel
      have hm : (max iw ih : ℤ) = iw := max_eq_left hc
      rw [hm] at hmax
      have hfw1 : iw + 1 ≤ finalWOf w h iw ih := by
        rw [finalWOf]
        apply le_jround
        have h1 : (iw : ℚ) * (1 + 1 / (iw : ℚ)) ≤ (iw : ℚ) * scaleOf w h iw ih :=
          mul_le_mul_of_nonneg_left hmax (le_of_lt hiwQ)
        have h2 : (iw : ℚ) * (1 + 1 / (iw : ℚ)) = (iw : ℚ) + 1 := by
          field_simp
        push_cast
        linarith
      have h3 : (iw + 1) * ih ≤ finalWOf w h iw ih * finalHOf w h iw ih :=
        mul_le_mul hfw1 hfh (le_of_lt hih) (by linarith)
      nlinarith
    · -- ih is the larger dimension: finalH gains at least one pixel
      have hm : (max iw ih : ℤ) = ih := max_eq_right hc
      rw [hm] at hmax
      have hfh1 : ih + 1 ≤ finalHOf w h iw ih := by
        rw [finalHOf]
        apply le_jround
        have h1 : (ih : ℚ) * (1 + 1 / (ih : ℚ)) ≤ (ih : ℚ) * scaleOf w h iw ih :=
          mul_le_mul_of_nonneg_left hmax (le_of_lt hihQ)
        have h2 : (ih : ℚ) * (1 + 1 / (ih : ℚ)) = (ih : ℚ) + 1 := by
          field_simp
        push_cast
        linarith
      have h3 : iw * (ih + 1) ≤ finalWOf w h iw ih * finalHOf w h iw ih :=
        mul_le_mul hfw hfh1 (by linarith) (by linarith)
      nlinarith
  exact ⟨rfl, rfl, rfl, hscale1, hfw, hfh, hprod⟩

/-- Witness for C5 at canvas 591 x 354 with a 100 x 50 decoded image. -/
theorem c5_scale_to_fit_witness :
    (0 : ℤ) < 100 ∧ (0 : ℤ) < 50
    ∧ (100 : ℤ) < drawWOf 591 354 ∧ (50 : ℤ) < drawHOf 591 354
    ∧ ((compositorGeometry 591 354 100 50).scale
        = min ((drawWOf 591 354 : ℚ) / (100 : ℚ)) ((drawHOf 591 354 : ℚ) / (50 : ℚ))
      ∧ (compositorGeometry 591 354 100 50).finalW
          = jround ((100 : ℚ) * (compositorGeometry 591 354 100 50).scale)
      ∧ (compositorGeometry 591 354 100 50).finalH
          = jround ((50 : ℚ) * (compositorGeometry 591 354 100 50).scale)
      ∧ 1 < (compositorGeometry 591 354 100 50).scale
      ∧ (100 : ℤ) ≤ (compositorGeometry 591 354 100 50).finalW
      ∧ (50 : ℤ) ≤ (compositorGeometry 591 354 100 50).finalH
      ∧ (100 : ℤ) * 50 < (compositorGeometry 591 354 100 50).finalW
          * (compositorGeometry 591 354 100 50).finalH) :=
  ⟨by norm_num, by norm_num,
    by norm_num [drawWOf, padOf, jround], by norm_num [drawHOf, padOf, jround],
    c5_scale_to_fit 591 354 100 50 (by norm_num) (by norm_num)
      (by norm_num [drawWOf, padOf, jround]) (by norm_num [drawHOf, padOf, jround])⟩

/-- C2 fails on the code: with a decoded image of zero width and height
the geometry of lines 107-111 evaluates to scale = Infinity and
finalW = finalH = NaN, and the export run neither detects the condition
nor reports any error: it completes as a success with an empty error
message. -/
theorem c2_zero_extent_not_detected :
    scaleOfJS 591 354 0 0 = JNum.posInf
    ∧ finalWOfJS 591 354 0 0 = JNum.nan
    ∧ finalHOfJS 591 354 0 0 = JNum.nan
    ∧ (exportPNG ⟨true, true, "svg", some (0, 0), true⟩ 5 3 300
        ⟨none, "", 0, []⟩).2.1 = Outcome.success
    ∧ (exportPNG ⟨true, true, "svg", some (0, 0), true⟩ 5 3 300
        ⟨none, "", 0, []⟩).1.error = "" := by
  refine ⟨?_, ?_, ?_, rfl, rfl⟩
  · norm_num [scaleOfJS, drawWOf, drawHOf, padOf, jround, JNum.div, JNum.minJ]
  · norm_num [finalWOfJS, scaleOfJS, drawWOf, drawHOf, padOf, jround,
      JNum.div, JNum.minJ, JNum.mul, JNum.round]
  · norm_num [finalHOfJS, scaleOfJS, drawWOf, drawHOf, padOf, jround,
      JNum.div, JNum.minJ, JNum.mul, JNum.round]

/-- C3 fails on the code: after a second successful export the object
URL of the first PNG (handle 1) is still live, because exportPNG only
revokes the temporary SVG URL and never revokes the previous download
URL; two downloadable handles are live at once. -/
theorem c3_previous_handle_leaked :
    (exportPNG ⟨true, true, "svg", some (200, 100), true⟩ 5 3 300
        ⟨none, "", 0, []⟩).1.downloadUrl = some 1
    ∧ (exportPNG ⟨true, true, "svg", some (200, 100), true⟩ 5 3 300
        (exportPNG ⟨true, true, "svg", some (200, 100), true⟩ 5 3 300
          ⟨none, "", 0, []⟩).1).1.downloadUrl = some 3
    ∧ (exportPNG ⟨true, true, "svg", some (200, 100), true⟩ 5 3 300
        (exportPNG ⟨true, true, "svg", some (200, 100), true⟩ 5 3 300
          ⟨none, "", 0, []⟩).1).1.live = [1, 3] :=
  ⟨rfl, rfl, rfl⟩

/-- C7: when the drawing surface is absent the export reports a symbol
unavailability error distinct from the downstream failure message, and
creates no resource handle of any kind. -/
theorem c7_symbol_unavailable (env : ExportEnv) (widthCm heightCm dpi : ℚ)
    (s : AppState) (h : env.refPresent = false ∨ env.svgFound = false) :
    ((exportPNG env widthCm heightCm dpi s).2.1 = Outcome.noBarcode
      ∨ (exportPNG env widthCm heightCm dpi s).2.1 = Outcome.svgNotFound)
    ∧ (exportPNG env widthCm heightCm dpi s).1.error ≠ ""
    ∧ (exportPNG env widthCm heightCm dpi s).1.error
        ≠ "Export failed. Try reducing DPI or changing the barcode format."
    ∧ (exportPNG env widthCm heightCm dpi s).1.live = s.live
    ∧ (exportPNG env widthCm heightCm dpi s).1.nextHandle = s.nextHandle
    ∧ (exportPNG env widthCm heightCm dpi s).1.downloadUrl = s.downloadUrl
    ∧ (exportPNG env widthCm heightCm dpi s).2.2 = none := by
  rcases h with h | h
  · simp [exportPNG, h]
  · cases hrp : env.refPresent with
    | false => simp [exportPNG, hrp]
    | true => simp [exportPNG, hrp, h]

/-- Witness for C7: absent inner SVG element. -/
theorem c7_symbol_unavailable_witness :
    ((⟨true, false, "", none, true⟩ : ExportEnv).refPresent = false
      ∨ (⟨true, false, "", none, true⟩ : ExportEnv).svgFound = false)
    ∧ (((exportPNG ⟨true, false, "", none, true⟩ 5 3 300
          ⟨some 4, "old error", 5, [4]⟩).2.1 = Outcome.noBarcode
        ∨ (exportPNG ⟨true, false, "", none, true⟩ 5 3 300
          ⟨some 4, "old error", 5, [4]⟩).2.1 = Outcome.svgNotFound)
      ∧ (exportPNG ⟨true, false, "", none, true⟩ 5 3 300
          ⟨some 4, "old error", 5, [4]⟩).1.error ≠ ""
      ∧ (exportPNG ⟨true, false, "", none, true⟩ 5 3 300
          ⟨some 4, "old error", 5, [4]⟩).1.error
          ≠ "Export failed. Try reducing DPI or changing the barcode format."
      ∧ (exportPNG ⟨true, false, "", none, true⟩ 5 3 300
          ⟨some 4, "old error", 5, [4]⟩).1.live
          = (⟨some 4, "old error", 5, [4]⟩ : AppState).live
      ∧ (exportPNG ⟨true, false, "", none, true⟩ 5 3 300
          ⟨some 4, "old error", 5, [4]⟩).1.nextHandle
          = (⟨some 4, "old error", 5, [4]⟩ : AppState).nextHandle
      ∧ (exportPNG ⟨true, false, "", none, true⟩ 5 3 300
          ⟨some 4, "old error", 5, [4]⟩).1.downloadUrl
          = (⟨some 4, "old error", 5, [4]⟩ : AppState).downloadUrl
      ∧ (exportPNG ⟨true, false, "", none, true⟩ 5 3 300
          ⟨some 4, "old error", 5, [4]⟩).2.2 = none) :=
  ⟨Or.inr rfl,
    c7_symbol_unavailable ⟨true, false, "", none, true⟩ 5 3 300
      ⟨some 4, "old error", 5, [4]⟩ (Or.inr rfl)⟩

/-- C8: when a run fails after the snapshot URL was created (decode or
encode failure), that URL is revoked by the time the error outcome is
delivered, the previous download handle and the rest of the resource
state are unchanged, and no PNG is produced. -/
theorem c8_failed_attempt_cleanup (env : ExportEnv) (widthCm heightCm dpi : ℚ)
    (s : AppState) (h1 : env.refPresent = true) (h2 : env.svgFound = true)
    (h3 : env.decodeResult = none ∨ env.encodeOk = false)
    (hfresh : s.nextHandle ∉ s.live) :
    (exportPNG env widthCm heightCm dpi s).2.1 = Outcome.exportFailed
    ∧ (exportPNG env widthCm heightCm dpi s).1.error
        = "Export failed. Try reducing DPI or changing the barcode format."
    ∧ (exportPNG env widthCm heightCm dpi s).1.live = s.live
    ∧ (exportPNG env widthCm heightCm dpi s).1.downloadUrl = s.downloadUrl
    ∧ (exportPNG env widthCm heightCm dpi s).2.2 = none := by
  have hfilter : (s.live ++ [s.nextHandle]).filter (fun x => x ≠ s.nextHandle)
      = s.live := by
    rw [List.filter_append, filter_ne_of_not_mem s.live s.nextHandle hfresh]
    simp
  rcases h3 with h3 | h3
  · simp [exportPNG, h1, h2, h3, hfilter]
    exact fun a ha e => hfresh (e ▸ ha)
  · cases hd : env.decodeResult with
    | none =>
        simp [exportPNG, h1, h2, hd, hfilter]
        exact fun a ha e => hfresh (e ▸ ha)
    | some p =>
        obtain ⟨iw, ih⟩ := p
        simp [exportPNG, h1, h2, h3, hd, hfilter]
        exact fun a ha e => hfresh (e ▸ ha)

/-- Witness for C8: decode failure with a previous Ready handle 0. -/
theorem c8_failed_attempt_cleanup_witness :
    (⟨true, true, "svg", none, true⟩ : ExportEnv).refPresent = true
    ∧ (⟨true, true, "svg", none, true⟩ : ExportEnv).svgFound = true
    ∧ ((⟨true, true, "svg", none, true⟩ : ExportEnv).decodeResult = none
        ∨ (⟨true, true, "svg", none, true⟩ : ExportEnv).encodeOk = false)
    ∧ (⟨some 0, "", 1, [0]⟩ : AppState).nextHandle ∉
        (⟨some 0, "", 1, [0]⟩ : AppState).live
    ∧ ((exportPNG ⟨true, true, "svg", none, true⟩ 5 3 300
          ⟨some 0, "", 1, [0]⟩).2.1 = Outcome.exportFailed
      ∧ (exportPNG ⟨true, true, "svg", none, true⟩ 5 3 300
          ⟨some 0, "", 1, [0]⟩).1.error
          = "Export failed. Try reducing DPI or changing the barcode format."
      ∧ (exportPNG ⟨true, true, "svg", none, true⟩ 5 3 300
          ⟨some 0, "", 1, [0]⟩).1.live = (⟨some 0, "", 1, [0]⟩ : AppState).live
      ∧ (exportPNG ⟨true, true, "svg", none, true⟩ 5 3 300
          ⟨some 0, "", 1, [0]⟩).1.downloadUrl
          = (⟨some 0, "", 1, [0]⟩ : AppState).downloadUrl
      ∧ (exportPNG ⟨true, true, "svg", none, true⟩ 5 3 300
          ⟨some 0, "", 1, [0]⟩).2.2 = none) :=
  ⟨rfl, rfl, Or.inl rfl, by simp,
    c8_failed_attempt_cleanup ⟨true, true, "svg", none, true⟩ 5 3 300
      ⟨some 0, "", 1, [0]⟩ rfl rfl (Or.inl rfl) (by simp)⟩

/-- C9: the pipeline is deterministic: for one environment (same symbol
snapshot, same decode and encode behaviour) and the same parameters,
the outcome and the produced PNG content (pixel dimensions, geometry
and drawn snapshot) do not depend on the prior component state. -/
theorem c9_deterministic (env : ExportEnv) (widthCm heightCm dpi : ℚ)
    (s t : AppState) :
    (exportPNG env widthCm heightCm dpi s).2.2
        = (exportPNG env widthCm heightCm dpi t).2.2
    ∧ (exportPNG env widthCm heightCm dpi s).2.1
        = (exportPNG env widthCm heightCm dpi t).2.1 := by
  cases hr : env.refPresent <;> cases hs : env.svgFound <;>
    cases he : env.encodeOk <;>
      cases hd : env.decodeResult with
  | _ => simp [exportPNG, hr, hs, he, hd]

/-- C10: both operations clear the error message first, the final state
never depends on the incoming error message, and after either
operation the error is non-empty exactly when that operation failed. -/
theorem c10_error_state (renv : RenderEnv) (env : ExportEnv)
    (widthCm heightCm dpi : ℚ) (s : AppState) (e₁ e₂ : String) :
    renderBarcode renv { s with error := e₁ }
        = renderBarcode renv { s with error := e₂ }
    ∧ ((renderBarcode renv s).1.error ≠ ""
        ↔ (renderBarcode renv s).2 = RenderOutcome.renderError)
    ∧ exportPNG env widthCm heightCm dpi { s with error := e₁ }
        = exportPNG env widthCm heightCm dpi { s with error := e₂ }
    ∧ ((exportPNG env widthCm heightCm dpi s).1.error ≠ ""
        ↔ (exportPNG env widthCm heightCm dpi s).2.1 ≠ Outcome.success) := by
  refine ⟨?_, ?_, ?_, ?_⟩
  · cases hr : renv.refPresent <;> cases hb : renv.barcodeOk <;>
      simp [renderBarcode, hr, hb]
  · cases hr : renv.refPresent <;> cases hb : renv.barcodeOk <;>
      simp [renderBarcode, hr, hb]
  · cases hr : env.refPresent <;> cases hs : env.svgFound <;>
      cases he : env.encodeOk <;>
        cases hd : env.decodeResult with
    | _ => simp [exportPNG, hr, hs, he, hd]
  · cases hr : env.refPresent <;> cases hs : env.svgFound <;>
      cases he : env.encodeOk <;>
        cases hd : env.decodeResult with
    | _ => simp [exportPNG, hr, hs, he, hd]

end Barcode
